import Mathlib

/-!
Shallow embedding of the EKAT Pack/Mask SIMD abstraction
(src/ekat/ekat_pack.hpp) and the abort facility (src/ekat/ekat_assert.cpp).

A `Pack T n` is a fixed-length sequence of `n` scalar lanes, modelled as a
function `Fin n → T`.  A `Mask n` is the paired boolean-lane type.  C++
loops `for (int i = 0; i < n; ++i)` over lanes become `List.foldl` over
`List.finRange n` (strict lane order 0..n-1), or pointwise functions when
the loop body is independent across lanes.  The `vector_simd` /
`vector_disabled` pragmas are compiler vectorization hints with no
sequential-semantics content, so both map to the same Lean fold; the
spec-level freedom of the vectorized reduction policy is modelled
separately as a fold over an arbitrary permutation of the lane order.
-/

namespace Ekat

/-- Mask with PackSize boolean lanes (struct Mask, ekat_pack.hpp:29-75).
The C++ stores `long d[n]` used as booleans; we store Bool directly. -/
structure Mask (n : ℕ) where
  d : Fin n → Bool

/-- Mask boolean-broadcast constructor (ekat_pack.hpp:44-47): every lane = init. -/
def Mask.bcast (n : ℕ) (init : Bool) : Mask n :=
  ⟨fun _ => init⟩

/-- Mask::any (ekat_pack.hpp:55-59): b=false; for each lane, if d[i] then b=true. -/
def Mask.any (m : Mask n) : Bool :=
  (List.finRange n).foldl (fun b i => if m.d i then true else b) false

/-- Mask::all (ekat_pack.hpp:62-66): b=true; for each lane, if !d[i] then b=false. -/
def Mask.all (m : Mask n) : Bool :=
  (List.finRange n).foldl (fun b i => if !(m.d i) then false else b) true

/-- Mask::none (ekat_pack.hpp:69-71): !any(). -/
def Mask.isNone (m : Mask n) : Bool :=
  !(m.any)

/-- Per-scalar-type traits (ekat_scalar_traits.hpp interface used by
ekat_pack.hpp): sentinel values, a display name, and the simd flag. -/
structure ScalarTraits (T : Type) where
  invalid : T
  quiet_NaN : T
  name : String
  is_simd : Bool

/-- Pack with n scalar lanes (struct Pack, ekat_pack.hpp:148-217). -/
structure Pack (T : Type) (n : ℕ) where
  d : Fin n → T

/-- Pack default constructor (ekat_pack.hpp:158-163): every lane =
ScalarTraits::invalid(). -/
def Pack.mkDefault (st : ScalarTraits T) (n : ℕ) : Pack T n :=
  ⟨fun _ => st.invalid⟩

/-- Pack scalar-broadcast constructor (ekat_pack.hpp:166-169): every lane = v. -/
def Pack.bcast (n : ℕ) (v : T) : Pack T n :=
  ⟨fun _ => v⟩

/-- Pack cross-pack constructor (ekat_pack.hpp:172-178): lane-by-lane copy. -/
def Pack.ofPack (v : Pack T n) : Pack T n :=
  ⟨fun i => v.d i⟩

/-- Pack masked constructor (ekat_pack.hpp:182-190):
lane i = p[i] if m[i] else ScalarTraits::invalid(). -/
def Pack.mkMasked (st : ScalarTraits T) (m : Mask n) (p : Pack T n) : Pack T n :=
  ⟨fun i => if m.d i then p.d i else st.invalid⟩

/-- Pack::set with a scalar (ekat_pack.hpp:201-204): lanes where mask is true
are overwritten with v, others keep their prior value. -/
def Pack.setScalar (q : Pack T n) (m : Mask n) (v : T) : Pack T n :=
  ⟨fun i => if m.d i then v else q.d i⟩

/-- Pack::set with a pack (ekat_pack.hpp:206-213): lanes where mask is true
are overwritten with p[i], others keep their prior value. -/
def Pack.set (q : Pack T n) (m : Mask n) (p : Pack T n) : Pack T n :=
  ⟨fun i => if m.d i then p.d i else q.d i⟩

/-- Binary operator, Pack op Pack shape (ekat_pack_gen_bin_op_pp,
ekat_pack.hpp:230-239): c[i] = a[i] op b[i]. -/
def genBinOpPP (op : T → T → T) (a b : Pack T n) : Pack T n :=
  ⟨fun i => op (a.d i) (b.d i)⟩

/-- Binary operator, Pack op Scalar shape (ekat_pack_gen_bin_op_ps,
ekat_pack.hpp:240-249): c[i] = a[i] op b. -/
def genBinOpPS (op : T → T → T) (a : Pack T n) (b : T) : Pack T n :=
  ⟨fun i => op (a.d i) b⟩

/-- Binary operator, Scalar op Pack shape (ekat_pack_gen_bin_op_sp,
ekat_pack.hpp:250-259): c[i] = a op b[i]. -/
def genBinOpSP (op : T → T → T) (a : T) (b : Pack T n) : Pack T n :=
  ⟨fun i => op a (b.d i)⟩

/-- reduce_sum, serialized branch (ekat_pack.hpp:324-325):
plain loop, sum += p[i] in strict lane order 0..n-1. -/
def reduce_sum_serialized [Add T] (p : Pack T n) (sum : T) : T :=
  (List.finRange n).foldl (fun s i => s + p.d i) sum

/-- reduce_sum, vectorized branch (ekat_pack.hpp:326-327): the same
sum += p[i] loop under a vector_simd pragma; the pragma has no
sequential-semantics content, so the sequential reading is the same fold. -/
def reduce_sum_vectorized [Add T] (p : Pack T n) (sum : T) : T :=
  (List.finRange n).foldl (fun s i => s + p.d i) sum

/-- Modelled from the spec: the vectorized reduce_sum policy leaves the
accumulation order unspecified (whatever order an auto-vectorizing compiler
picks), which we model as a fold over an arbitrary permutation ord of the
lane order; the source text at ekat_pack.hpp:326-327 does not fix the order
beyond the loop the compiler is free to reorder. -/
def reduce_sum_order [Add T] (ord : List (Fin n)) (p : Pack T n) (sum : T) : T :=
  ord.foldl (fun s i => s + p.d i) sum

/-- Two-argument reduce_sum with compile-time Serialize flag
(ekat_pack.hpp:321-329): dispatches to the serialized or vectorized branch,
accumulating onto the incoming sum. -/
def reduce_sum [Add T] (serialize : Bool) (p : Pack T n) (sum : T) : T :=
  if serialize then reduce_sum_serialized p sum else reduce_sum_vectorized p sum

/-- One-argument reduce_sum (ekat_pack.hpp:338-344): starts the accumulator
at scalar(0) and calls the two-argument form. -/
def reduce_sum1 [Add T] [Zero T] (serialize : Bool) (p : Pack T n) : T :=
  reduce_sum serialize p 0

/-- Masked min reduction (ekat_pack.hpp:352-358): for each lane in order,
if mask[i] then init = min(init, p[i]). -/
def maskedMin [LinearOrder T] (m : Mask n) (init : T) (p : Pack T n) : T :=
  (List.finRange n).foldl (fun acc i => if m.d i then min acc (p.d i) else acc) init

/-- Masked max reduction (ekat_pack.hpp:361-367): for each lane in order,
if mask[i] then init = max(init, p[i]). -/
def maskedMax [LinearOrder T] (m : Mask n) (init : T) (p : Pack T n) : T :=
  (List.finRange n).foldl (fun acc i => if m.d i then max acc (p.d i) else acc) init

/-- shift_right with Pack boundary (ekat_pack.hpp:453-460):
s[0] = pm1[n-1]; s[i] = p[i-1] for i in 1..n-1. -/
def shift_right_pp (pm1 p : Pack T n) : Pack T n :=
  ⟨fun i =>
    if i.val = 0 then pm1.d ⟨n - 1, Nat.sub_lt i.pos Nat.one_pos⟩
    else p.d ⟨i.val - 1, Nat.lt_of_le_of_lt (Nat.sub_le _ _) i.isLt⟩⟩

/-- shift_right with scalar boundary (ekat_pack.hpp:462-469):
s[0] = pm1; s[i] = p[i-1] for i in 1..n-1. -/
def shift_right_sp (pm1 : T) (p : Pack T n) : Pack T n :=
  ⟨fun i =>
    if i.val = 0 then pm1
    else p.d ⟨i.val - 1, Nat.lt_of_le_of_lt (Nat.sub_le _ _) i.isLt⟩⟩

/-- shift_left with Pack boundary (ekat_pack.hpp:471-478):
s[n-1] = pp1[0]; s[i] = p[i+1] for i in 0..n-2. -/
def shift_left_pp (pp1 p : Pack T n) : Pack T n :=
  ⟨fun i =>
    if h : i.val = n - 1 then pp1.d ⟨0, i.pos⟩
    else p.d ⟨i.val + 1, by omega⟩⟩

/-- shift_left with scalar boundary (ekat_pack.hpp:480-486):
s[n-1] = pp1; s[i] = p[i+1] for i in 0..n-2. -/
def shift_left_sp (pp1 : T) (p : Pack T n) : Pack T n :=
  ⟨fun i =>
    if h : i.val = n - 1 then pp1
    else p.d ⟨i.val + 1, by omega⟩⟩

/-- ScalarTraits specialization for Pack (ekat_pack.hpp:578-610):
quiet_NaN() and invalid() broadcast the inner-scalar sentinel into every
lane; the name is composed from the inner name and n; is_simd = true. -/
def packTraits (st : ScalarTraits T) (n : ℕ) : ScalarTraits (Pack T n) where
  invalid := Pack.bcast n st.invalid
  quiet_NaN := Pack.bcast n st.quiet_NaN
  name := "Pack<" ++ st.name ++ "," ++ toString n ++ ">"
  is_simd := true

/-- How the process exits in runtime_abort (ekat_assert.cpp:27-34):
MPI_Abort with the given code when MPI is initialized, else std::abort. -/
inductive ExitMode where
  | mpiAbort (code : ℤ)
  | plainAbort
deriving DecidableEq

/-- Observable effects of an abort: the lines printed to stderr, whether the
ekat session was finalized, and the exit mechanism. -/
structure AbortOutcome where
  printed : List String
  finalized : Bool
  exit : ExitMode
deriving DecidableEq

/-- runtime_abort (ekat_assert.cpp:21-35): prints the message and
a trailing marker line, finalizes the ekat session, then exits by
MPI_Abort(code) if MPI is initialized, else by std::abort. The Bool
argument models the MPI_Initialized query. -/
def runtime_abort (mpiInitialized : Bool) (message : String) (code : ℤ) : AbortOutcome :=
  { printed := [message, "Exiting..."]
  , finalized := true
  , exit := if mpiInitialized then ExitMode.mpiAbort code else ExitMode.plainAbort }

/-- runtime_check (ekat_assert.cpp:15-19): calls runtime_abort exactly when
the condition is false; otherwise no effect (modelled as Option.none). -/
def runtime_check (mpiInitialized : Bool) (cond : Bool) (message : String) (code : ℤ) :
    Option AbortOutcome :=
  if !cond then some (runtime_abort mpiInitialized message code) else Option.none

/-! Helper lemmas about the lane-order folds. -/

/-- An accumulate-in-order loop sum += f x is the initial value plus the sum
of the mapped list. -/
lemma foldl_add_eq {α : Type} (f : α → ℤ) (l : List α) (s : ℤ) :
    l.foldl (fun a x => a + f x) s = s + (l.map f).sum := by
  induction l generalizing s with
  | nil => simp
  | cons x xs ih => simp [ih, add_assoc]

/-- The any() loop body if f x then true else acc is a big or. -/
lemma foldl_or_eq {α : Type} (f : α → Bool) (l : List α) (b : Bool) :
    l.foldl (fun acc x => if f x then true else acc) b = (b || l.any f) := by
  induction l generalizing b with
  | nil => simp
  | cons x xs ih =>
    rw [List.foldl_cons, ih]
    cases hx : f x <;> cases b <;> simp [hx]

/-- The all() loop body if !(f x) then false else acc is a big and. -/
lemma foldl_and_eq {α : Type} (f : α → Bool) (l : List α) (b : Bool) :
    l.foldl (fun acc x => if !(f x) then false else acc) b = (b && l.all f) := by
  induction l generalizing b with
  | nil => simp
  | cons x xs ih =>
    rw [List.foldl_cons, ih]
    cases hx : f x <;> cases b <;> simp [hx]

/-- A loop that folds only lanes passing a test equals the fold over the
filtered lane list. -/
lemma foldl_ite_eq_filter {α β : Type} (q : α → Bool) (f : β → α → β)
    (l : List α) (init : β) :
    l.foldl (fun acc x => if q x then f acc x else acc) init
      = (l.filter q).foldl f init := by
  induction l generalizing init with
  | nil => rfl
  | cons x xs ih => cases hq : q x <;> simp [List.filter_cons, hq, ih]

/-! Theorems settling the claims. -/

/-- C4: a default-constructed Pack has every lane equal to
ScalarTraits::invalid(). -/
theorem default_pack_lanes_invalid {T : Type} (st : ScalarTraits T) (n : ℕ) (i : Fin n) :
    (Pack.mkDefault st n).d i = st.invalid :=
  rfl

/-- C3: the masked constructor Pack(m,p) yields lane i = p[i] when m[i] and
the invalid sentinel otherwise, while q.set(m,p) yields lane i = p[i] when
m[i] and the prior q[i] otherwise; they differ exactly on unselected lanes. -/
theorem masked_ctor_vs_set {T : Type} (st : ScalarTraits T) {n : ℕ}
    (m : Mask n) (p q : Pack T n) (i : Fin n) :
    (m.d i = true →
      (Pack.mkMasked st m p).d i = p.d i ∧ (q.set m p).d i = p.d i) ∧
    (m.d i = false →
      (Pack.mkMasked st m p).d i = st.invalid ∧ (q.set m p).d i = q.d i) := by
  constructor <;> intro h <;> simp [Pack.mkMasked, Pack.set, h]

/-- Witness for masked_ctor_vs_set at n = 2, m = [true,false],
p = [5,6], q = [7,8]: the selected lane copies p, the unselected lane of the
constructor is the sentinel while set keeps q. -/
theorem masked_ctor_vs_set_witness :
    ((Pack.mkMasked ⟨-1, 0, "int", false⟩ ⟨![true, false]⟩ ⟨![(5 : ℤ), 6]⟩).d 0 = 5 ∧
      ((Pack.mk ![(7 : ℤ), 8]).set ⟨![true, false]⟩ ⟨![(5 : ℤ), 6]⟩).d 0 = 5) ∧
    ((Pack.mkMasked ⟨-1, 0, "int", false⟩ ⟨![true, false]⟩ ⟨![(5 : ℤ), 6]⟩).d 1 = -1 ∧
      ((Pack.mk ![(7 : ℤ), 8]).set ⟨![true, false]⟩ ⟨![(5 : ℤ), 6]⟩).d 1 = 8) :=
  ⟨(masked_ctor_vs_set ⟨-1, 0, "int", false⟩ ⟨![true, false]⟩
      ⟨![(5 : ℤ), 6]⟩ ⟨![(7 : ℤ), 8]⟩ 0).1 (by decide),
    (masked_ctor_vs_set ⟨-1, 0, "int", false⟩ ⟨![true, false]⟩
      ⟨![(5 : ℤ), 6]⟩ ⟨![(7 : ℤ), 8]⟩ 1).2 (by decide)⟩

/-- C5: the binary arithmetic operators + - * / act lane-wise in all three
operand shapes (Pack op Pack, Pack op Scalar, Scalar op Pack), a scalar
operand broadcasting across lanes; the result is a Pack of the same lane
count by construction. -/
theorem arith_ops_lanewise {n : ℕ} (a b : Pack ℤ n) (x : ℤ) (i : Fin n) :
    ((genBinOpPP (· + ·) a b).d i = a.d i + b.d i ∧
      (genBinOpPS (· + ·) a x).d i = a.d i + x ∧
      (genBinOpSP (· + ·) x b).d i = x + b.d i) ∧
    ((genBinOpPP (· - ·) a b).d i = a.d i - b.d i ∧
      (genBinOpPS (· - ·) a x).d i = a.d i - x ∧
      (genBinOpSP (· - ·) x b).d i = x - b.d i) ∧
    ((genBinOpPP (· * ·) a b).d i = a.d i * b.d i ∧
      (genBinOpPS (· * ·) a x).d i = a.d i * x ∧
      (genBinOpSP (· * ·) x b).d i = x * b.d i) ∧
    ((genBinOpPP (· / ·) a b).d i = a.d i / b.d i ∧
      (genBinOpPS (· / ·) a x).d i = a.d i / x ∧
      (genBinOpSP (· / ·) x b).d i = x / b.d i) :=
  ⟨⟨rfl, rfl, rfl⟩, ⟨rfl, rfl, rfl⟩, ⟨rfl, rfl, rfl⟩, ⟨rfl, rfl, rfl⟩⟩

/-- C7: the Pack specialization of ScalarTraits returns invalid() and
quiet_NaN() as Packs with every lane equal to the inner-scalar sentinel,
for every power-of-two lane count. -/
theorem pack_traits_sentinels {T : Type} (st : ScalarTraits T) (n : ℕ)
    (hpow : ∃ k, n = 2 ^ k) (i : Fin n) :
    (packTraits st n).invalid.d i = st.invalid ∧
    (packTraits st n).quiet_NaN.d i = st.quiet_NaN :=
  ⟨rfl, rfl⟩

/-- Witness for pack_traits_sentinels at n = 4 with an integer-like traits
record whose invalid sentinel is -1 and quiet_NaN stand-in is 0. -/
theorem pack_traits_sentinels_witness :
    (packTraits ⟨(-1 : ℤ), 0, "int", false⟩ 4).invalid.d 2 = -1 ∧
    (packTraits ⟨(-1 : ℤ), 0, "int", false⟩ 4).quiet_NaN.d 2 = 0 :=
  pack_traits_sentinels ⟨(-1 : ℤ), 0, "int", false⟩ 4 ⟨2, rfl⟩ 2

/-- C8: any() is true iff at least one lane is true, all() is true iff every
lane is true, none() equals !any(), and all() implies any() (the Mask has at
least one lane: a zero-length C array is ill-formed). -/
theorem mask_any_all_none {n : ℕ} (hn : 0 < n) (m : Mask n) :
    (m.any = true ↔ ∃ i, m.d i = true) ∧
    (m.all = true ↔ ∀ i, m.d i = true) ∧
    m.isNone = !(m.any) ∧
    (m.all = true → m.any = true) := by
  have hany : m.any = (List.finRange n).any m.d := by
    rw [Mask.any, foldl_or_eq, Bool.false_or]
  have hall : m.all = (List.finRange n).all m.d := by
    rw [Mask.all, foldl_and_eq, Bool.true_and]
  refine ⟨?_, ?_, rfl, ?_⟩
  · rw [hany, List.any_eq_true]
    exact ⟨fun ⟨i, _, hi⟩ => ⟨i, hi⟩, fun ⟨i, hi⟩ => ⟨i, List.mem_finRange i, hi⟩⟩
  · rw [hall, List.all_eq_true]
    exact ⟨fun h i => h i (List.mem_finRange i), fun h i _ => h i⟩
  · intro h
    rw [hall, List.all_eq_true] at h
    rw [hany, List.any_eq_true]
    exact ⟨⟨0, hn⟩, List.mem_finRange _, h _ (List.mem_finRange _)⟩

/-- Witness for mask_any_all_none on the single-lane all-true mask. -/
theorem mask_any_all_none_witness :
    (Mask.mk ![true]).isNone = !((Mask.mk ![true]).any) ∧
    (Mask.mk ![true]).any = true :=
  ⟨(mask_any_all_none Nat.one_pos ⟨![true]⟩).2.2.1,
    (mask_any_all_none Nat.one_pos ⟨![true]⟩).2.2.2 (by decide)⟩

/-- C6: the masked min and max reductions fold the accumulator through
exactly the lanes selected by the mask, in lane order; unselected lanes
leave the accumulator unchanged, so an all-false mask returns the initial
value; and the spec example (max over lanes [3,1,4,1], mask
[true,false,true,false], init 0) yields 4. -/
theorem masked_minmax_spec {n : ℕ} (m : Mask n) (init : ℤ) (p : Pack ℤ n) :
    (maskedMin m init p
        = ((List.finRange n).filter (fun i => m.d i)).foldl
            (fun acc i => min acc (p.d i)) init) ∧
    (maskedMax m init p
        = ((List.finRange n).filter (fun i => m.d i)).foldl
            (fun acc i => max acc (p.d i)) init) ∧
    ((∀ i, m.d i = false) → maskedMin m init p = init ∧ maskedMax m init p = init) ∧
    maskedMax ⟨![true, false, true, false]⟩ 0 ⟨![(3 : ℤ), 1, 4, 1]⟩ = 4 := by
  have hfil : ∀ {q : Fin n → Bool}, (∀ i, q i = false) →
      (List.finRange n).filter (fun i => q i) = [] := by
    intro q hq
    simp [List.filter_eq_nil_iff, hq]
  refine ⟨foldl_ite_eq_filter _ _ _ _, foldl_ite_eq_filter _ _ _ _, ?_, by decide⟩
  intro h
  constructor
  · rw [maskedMin, foldl_ite_eq_filter, hfil h]
    rfl
  · rw [maskedMax, foldl_ite_eq_filter, hfil h]
    rfl

/-- Witness for masked_minmax_spec: an all-false mask leaves the initial
accumulator untouched for both min and max. -/
theorem masked_minmax_spec_witness :
    maskedMin (Mask.mk ![false, false]) (5 : ℤ) (Pack.mk ![(1 : ℤ), 2]) = 5 ∧
    maskedMax (Mask.mk ![false, false]) (5 : ℤ) (Pack.mk ![(1 : ℤ), 2]) = 5 :=
  (masked_minmax_spec ⟨![false, false]⟩ 5 ⟨![(1 : ℤ), 2]⟩).2.2.1 (by decide)

/-- C10: the two-argument reduce_sum accumulates onto the incoming
accumulator, leaving sum0 + p[0] + ... + p[n-1], for either policy flag;
the one-argument reduce_sum starts from zero and returns the lane sum. -/
theorem reduce_sum_accumulates {n : ℕ} (serialize : Bool) (p : Pack ℤ n) (sum0 : ℤ) :
    reduce_sum serialize p sum0 = sum0 + ∑ i, p.d i ∧
    reduce_sum1 serialize p = ∑ i, p.d i := by
  have key : ∀ s : ℤ, (List.finRange n).foldl (fun a i => a + p.d i) s = s + ∑ i, p.d i := by
    intro s
    rw [foldl_add_eq, Fin.sum_univ_def]
  have hrs : ∀ s : ℤ, reduce_sum serialize p s = s + ∑ i, p.d i := by
    intro s
    cases serialize <;>
      simp [reduce_sum, reduce_sum_serialized, reduce_sum_vectorized, key]
  exact ⟨hrs sum0, by rw [reduce_sum1, hrs 0, zero_add]⟩

/-- C2: over the integers (exact, associative arithmetic) the serialized
policy and the vectorized policy of reduce_sum agree from any starting
accumulator: the vectorized branch as written is the same lane-order loop,
and any accumulation order the compiler could pick (any permutation of the
lanes) still gives the serialized result. -/
theorem reduce_sum_policies_agree {n : ℕ} (p : Pack ℤ n) (s : ℤ)
    (ord : List (Fin n)) (h : ord.Perm (List.finRange n)) :
    reduce_sum_vectorized p s = reduce_sum_serialized p s ∧
    reduce_sum_order ord p s = reduce_sum_serialized p s := by
  refine ⟨rfl, ?_⟩
  rw [reduce_sum_order, reduce_sum_serialized, foldl_add_eq, foldl_add_eq,
    List.Perm.sum_eq (List.Perm.map p.d h)]

/-- Witness for reduce_sum_policies_agree at n = 2 with the reversed lane
order standing in for the compiler-chosen order. -/
theorem reduce_sum_policies_agree_witness :
    reduce_sum_vectorized (Pack.mk ![(1 : ℤ), 2]) 10
        = reduce_sum_serialized (Pack.mk ![(1 : ℤ), 2]) 10 ∧
    reduce_sum_order [1, 0] (Pack.mk ![(1 : ℤ), 2]) 10
        = reduce_sum_serialized (Pack.mk ![(1 : ℤ), 2]) 10 :=
  reduce_sum_policies_agree ⟨![(1 : ℤ), 2]⟩ 10 [1, 0] (by
    have h2 : List.finRange 2 = [0, 1] := by decide
    rw [h2]
    exact List.Perm.swap 0 1 [])

/-- C1 counterexample: with boundary pack pm1 = [10, 20] and p = [1, 2],
shift_right(pm1, p) has lane 0 equal to 20 = pm1[n-1], not pm1[0] = 10 as
the claim states. -/
theorem shift_right_boundary_counterexample :
    ¬ ((shift_right_pp (Pack.mk ![(10 : ℤ), 20]) (Pack.mk ![(1 : ℤ), 2])).d 0
        = (Pack.mk ![(10 : ℤ), 20]).d 0) := by
  decide

/-- C1 amended: shift_right(b, p) has lane 0 equal to the boundary value —
the given scalar, or, when the boundary is a Pack, the value sourced from
lane n-1 of that boundary pack — and lanes 1..n-1 equal to p's lanes
0..n-2; shift_left(b, p) has lane n-1 equal to the boundary value — the
given scalar, or lane 0 of a boundary pack — and lanes 0..n-2 equal to p's
lanes 1..n-1. -/
theorem shift_ops_amended {T : Type} {n : ℕ} (b : T) (pm1 pp1 p : Pack T n)
    (hn : 0 < n) :
    (shift_right_sp b p).d ⟨0, hn⟩ = b ∧
    (shift_right_pp pm1 p).d ⟨0, hn⟩ = pm1.d ⟨n - 1, Nat.sub_lt hn Nat.one_pos⟩ ∧
    (∀ i : Fin n, ∀ h1 : 1 ≤ i.val,
      (shift_right_sp b p).d i = p.d ⟨i.val - 1, Nat.lt_of_le_of_lt (Nat.sub_le _ _) i.isLt⟩ ∧
      (shift_right_pp pm1 p).d i = p.d ⟨i.val - 1, Nat.lt_of_le_of_lt (Nat.sub_le _ _) i.isLt⟩) ∧
    (shift_left_sp b p).d ⟨n - 1, Nat.sub_lt hn Nat.one_pos⟩ = b ∧
    (shift_left_pp pp1 p).d ⟨n - 1, Nat.sub_lt hn Nat.one_pos⟩ = pp1.d ⟨0, hn⟩ ∧
    (∀ i : Fin n, ∀ hlast : i.val < n - 1,
      (shift_left_sp b p).d i = p.d ⟨i.val + 1, by omega⟩ ∧
      (shift_left_pp pp1 p).d i = p.d ⟨i.val + 1, by omega⟩) := by
  refine ⟨rfl, rfl, ?_, ?_, ?_, ?_⟩
  · intro i h1
    have hne : ¬ (i.val = 0) := by omega
    constructor <;> simp [shift_right_sp, shift_right_pp, hne]
  · have hne : n - 1 = n - 1 := rfl
    simp [shift_left_sp]
  · simp [shift_left_pp]
  · intro i hlast
    have hne : ¬ (i.val = n - 1) := by omega
    constructor <;> simp [shift_left_sp, shift_left_pp, hne]

/-- Witness for shift_ops_amended at n = 2 over the integers. -/
theorem shift_ops_amended_witness :
    (shift_right_sp (9 : ℤ) (Pack.mk ![(1 : ℤ), 2])).d ⟨0, Nat.two_pos⟩ = 9 ∧
    (shift_right_pp (Pack.mk ![(10 : ℤ), 20]) (Pack.mk ![(1 : ℤ), 2])).d ⟨0, Nat.two_pos⟩
      = (Pack.mk ![(10 : ℤ), 20]).d ⟨2 - 1, Nat.sub_lt Nat.two_pos Nat.one_pos⟩ :=
  ⟨(shift_ops_amended (9 : ℤ) ⟨![(10 : ℤ), 20]⟩ ⟨![(10 : ℤ), 20]⟩
      ⟨![(1 : ℤ), 2]⟩ Nat.two_pos).1,
    (shift_ops_amended (9 : ℤ) ⟨![(10 : ℤ), 20]⟩ ⟨![(10 : ℤ), 20]⟩
      ⟨![(1 : ℤ), 2]⟩ Nat.two_pos).2.1⟩

/-- C9: runtime_check invokes runtime_abort exactly when the condition is
false and does nothing otherwise; runtime_abort prints the message,
finalizes the session, and exits by MPI_Abort with the given code when MPI
is initialized, else by std::abort. -/
theorem runtime_check_abort_spec (mpi cond : Bool) (msg : String) (code : ℤ) :
    (runtime_check mpi cond msg code = Option.none ↔ cond = true) ∧
    (cond = false →
      runtime_check mpi cond msg code = some (runtime_abort mpi msg code)) ∧
    (runtime_abort mpi msg code).printed.head? = some msg ∧
    (runtime_abort mpi msg code).finalized = true ∧
    (runtime_abort mpi msg code).exit
      = (if mpi then ExitMode.mpiAbort code else ExitMode.plainAbort) := by
  refine ⟨?_, ?_, rfl, rfl, rfl⟩
  · cases cond <;> simp [runtime_check]
  · intro h
    rw [h]
    rfl

/-- Witness for runtime_check_abort_spec: a failed check aborts with the
message and code, exiting through MPI_Abort when MPI is active. -/
theorem runtime_check_abort_spec_witness :
    runtime_check true false "boom" 3 = some (runtime_abort true "boom" 3) ∧
    (runtime_abort true "boom" 3).exit
      = (if true then ExitMode.mpiAbort 3 else ExitMode.plainAbort) :=
  ⟨(runtime_check_abort_spec true false "boom" 3).2.1 rfl,
    (runtime_check_abort_spec true false "boom" 3).2.2.2.2⟩
